import Mathlib

/-!
Verification of the download-timeseries endpoint of cratestats.io
(src/main.rs), as a shallow embedding.

Modelling choices:
* Machine integers (`i32` ids, `i64` download counts) become `Int`;
  `chrono::NaiveDate` becomes `Int` (days are linearly ordered and only
  compared, never computed with).
* The database is a snapshot of the three tables the queries read
  (`crates`, `versions`, `version_downloads`), and the SQL engine is given
  relational semantics for the two fixed query texts the program issues.
* The request body is a JSON value (or `none` for a byte sequence that is
  not valid JSON) plus its byte size; serde deserialization of
  `DownloadTimeseriesRequest` is modelled field by field.
* Failure of the environment (connection-pool checkout, query execution,
  row mapping, scheduling on the blocking thread pool) is modelled by an
  `ExecEnv` of four booleans; a failed `.unwrap()` in the closure is a
  panic, which actix's `web::block` bridge reports as a cancellation.
-/

namespace CrateStats

/-- Row of the crates table: `crates(id, name)`. -/
structure Crate where
  id : Int
  name : String
deriving DecidableEq, Repr

/-- Row of the versions table: `versions(id, crate_id, num)`. -/
structure CrateVersion where
  id : Int
  crate_id : Int
  num : String
deriving DecidableEq, Repr

/-- Row of the per-version-per-date counter table:
`version_downloads(version_id, date, downloads)`. -/
structure VersionDownload where
  version_id : Int
  date : Int
  downloads : Int
deriving DecidableEq, Repr

/-- Snapshot of the three tables the endpoint reads. -/
structure Database where
  crates : List Crate
  versions : List CrateVersion
  version_downloads : List VersionDownload
deriving DecidableEq, Repr

/-- The deserialized request body (struct `DownloadTimeseriesRequest`). -/
structure DownloadTimeseriesRequest where
  name : String
  version : Option String
deriving DecidableEq, Repr

/-- One timeseries point (struct `Download` in the handler). -/
structure Download where
  date : Int
  downloads : Int
deriving DecidableEq, Repr

/-- The response body (struct `Response` in the handler). -/
structure Response where
  name : String
  version : Option String
  downloads : List Download
deriving DecidableEq, Repr

/-- JSON values, for modelling body deserialization. -/
inductive Json where
  | null
  | bool (b : Bool)
  | num (n : Int)
  | str (s : String)
  | arr (elems : List Json)
  | obj (fields : List (String × Json))

/-- Field lookup in a JSON object (first binding wins). -/
def lookupField (k : String) : List (String × Json) → Option Json
  | [] => none
  | (k2, v) :: rest => if k2 = k then some v else lookupField k rest

/-- Serde deserialization of the optional `version` field: absent or
`null` gives `None`, a string gives `Some`, anything else is an error. -/
def parseVersionField (fields : List (String × Json)) : Option (Option String) :=
  match lookupField "version" fields with
  | none => some none
  | some Json.null => some none
  | some (Json.str v) => some (some v)
  | some _ => none

/-- Serde deserialization of `DownloadTimeseriesRequest`: the body must be
a JSON object whose `name` field is a string; `version` is optional. -/
def parseRequest (j : Json) : Option DownloadTimeseriesRequest :=
  match j with
  | Json.obj fields =>
    match lookupField "name" fields, parseVersionField fields with
    | some (Json.str n), some v => some { name := n, version := v }
    | _, _ => none
  | _ => none

/-- The SQL text the handler issues when `version` is present
(verbatim from the source). -/
def queryTextWithVersion : String :=
  "\n            SELECT version_downloads.date, sum(version_downloads.downloads)\n            FROM crates\n            JOIN versions ON crates.id = versions.crate_id\n            JOIN version_downloads ON versions.id = version_downloads.version_id\n            WHERE crates.name = $1\n            AND versions.num = $2\n            GROUP BY version_downloads.date\n            ORDER BY version_downloads.date ASC"

/-- The SQL text the handler issues when `version` is absent
(verbatim from the source). -/
def queryTextNoVersion : String :=
  "\n            SELECT version_downloads.date, sum(version_downloads.downloads)\n            FROM crates\n            JOIN versions ON crates.id = versions.crate_id\n            JOIN version_downloads ON versions.id = version_downloads.version_id\n            WHERE crates.name = $1\n            GROUP BY version_downloads.date\n            ORDER BY version_downloads.date ASC"

/-- One row of the `crates JOIN versions JOIN version_downloads` chain. -/
abbrev JoinRow := Crate × CrateVersion × VersionDownload

/-- Relational semantics of the two-step join chain
`crates JOIN versions ON crates.id = versions.crate_id
JOIN version_downloads ON versions.id = version_downloads.version_id`. -/
def joinRows (db : Database) : List JoinRow :=
  db.crates.flatMap fun c =>
    (db.versions.filter fun v => v.crate_id == c.id).flatMap fun v =>
      (db.version_downloads.filter fun vd => vd.version_id == v.id).map fun vd =>
        (c, v, vd)

/-- The date column of a row list. -/
def rowsDates (rows : List JoinRow) : List Int :=
  rows.map fun r => r.2.2.date

/-- Aggregate `sum(version_downloads.downloads)` for one date group. -/
def sumAtDate (rows : List JoinRow) (d : Int) : Int :=
  ((rows.filter fun r => r.2.2.date == d).map fun r => r.2.2.downloads).sum

/-- Semantics of `GROUP BY version_downloads.date ... ORDER BY
version_downloads.date ASC` with the `sum` aggregate: the distinct dates,
in ascending order, each paired with its group sum. -/
def sqlGroupOrder (rows : List JoinRow) : List (Int × Int) :=
  (List.insertionSort (· ≤ ·) (rowsDates rows).dedup).map fun d =>
    (d, sumAtDate rows d)

/-- Semantics of the with-version query: join chain, filter by
`crates.name = $1 AND versions.num = $2`, group, sum, order. -/
def queryWithVersion (db : Database) (name vnum : String) : List (Int × Int) :=
  sqlGroupOrder ((joinRows db).filter fun r =>
    r.1.name == name && r.2.1.num == vnum)

/-- Semantics of the no-version query: join chain, filter by
`crates.name = $1` only, group, sum, order. -/
def queryNoVersion (db : Database) (name : String) : List (Int × Int) :=
  sqlGroupOrder ((joinRows db).filter fun r => r.1.name == name)

/-- The SQL engine, as a partial map over query texts: it understands the
two texts this program issues, given the right number of positional
parameters, and fails on anything else. -/
def runSql (db : Database) (text : String) (params : List String) :
    Option (List (Int × Int)) :=
  if text = queryTextWithVersion then
    match params with
    | [n, v] => some (queryWithVersion db n v)
    | _ => none
  else if text = queryTextNoVersion then
    match params with
    | [n] => some (queryNoVersion db n)
    | _ => none
  else none

/-- The query text and positional parameter list the handler passes to
`conn.query`, selected by the `if let Some(version) = req.version` branch
in the source. -/
def executedQuery (req : DownloadTimeseriesRequest) : String × List String :=
  match req.version with
  | some v => (queryTextWithVersion, [req.name, v])
  | none => (queryTextNoVersion, [req.name])

/-- Result of running a closure that may panic (a failed `.unwrap()`). -/
inductive PanicOr (α : Type) where
  | panicked
  | value (a : α)
deriving DecidableEq, Repr

/-- Which infrastructure steps succeed for a given request: checkout from
the connection pool (`db.get()`), query execution (`conn.query`), row
mapping (`row.get`), and scheduling on the blocking thread pool. -/
structure ExecEnv where
  scheduleOk : Bool
  poolGetOk : Bool
  queryOk : Bool
  rowMapOk : Bool
deriving DecidableEq, Repr

/-- The closure passed to `web::block`: check out a connection (`.unwrap()`
panics on pool failure), run the selected query (`.unwrap()` panics on
query failure), map rows to `Download` values (`row.get` panics on a
mapping failure), and return `Ok(Response)` — the error type is `()` and
no `Err` is ever constructed. -/
def blockingClosure (env : ExecEnv) (db : Database)
    (req : DownloadTimeseriesRequest) : PanicOr (Except Unit Response) :=
  if env.poolGetOk = false then PanicOr.panicked
  else if env.queryOk = false then PanicOr.panicked
  else
    match runSql db (executedQuery req).1 (executedQuery req).2 with
    | none => PanicOr.panicked
    | some rows =>
      if env.rowMapOk = false then PanicOr.panicked
      else
        PanicOr.value (Except.ok
          { name := req.name
            version := req.version
            downloads := rows.map fun p => { date := p.1, downloads := p.2 } })

/-- Error type of the `web::block` bridge: either the closure returned
`Err(e)`, or the bridge was canceled (scheduling failure, or a panic
inside the closure). -/
inductive BlockingError (E : Type) where
  | error (e : E)
  | canceled
deriving DecidableEq, Repr

/-- The `web::block` bridge: reject with `Canceled` when the work cannot
be scheduled or panics; otherwise forward the closure result. -/
def webBlock {α E : Type} (scheduleOk : Bool) (work : PanicOr (Except E α)) :
    Except (BlockingError E) α :=
  if scheduleOk = false then Except.error BlockingError.canceled
  else
    match work with
    | PanicOr.panicked => Except.error BlockingError.canceled
    | PanicOr.value (Except.ok a) => Except.ok a
    | PanicOr.value (Except.error e) => Except.error (BlockingError.error e)

/-- HTTP outcome of a request, as far as this endpoint distinguishes it. -/
inductive HttpOutcome where
  | success (resp : Response)
  | clientError (code : Nat)
  | serverError
deriving DecidableEq, Repr

/-- Status code of an outcome: 200 on success, the recorded 4xx code for
an input fault, 500 for the generic internal fault. -/
def statusCode : HttpOutcome → Nat
  | HttpOutcome.success _ => 200
  | HttpOutcome.clientError c => c
  | HttpOutcome.serverError => 500

/-- The handler body after deserialization: run the closure through
`web::block`, answer 200 with the JSON response on `Ok`, and map any
bridge error to `HttpResponse::InternalServerError` (500). -/
def download_timeseries (env : ExecEnv) (db : Database)
    (req : DownloadTimeseriesRequest) : HttpOutcome :=
  match webBlock env.scheduleOk (blockingClosure env db req) with
  | Except.ok resp => HttpOutcome.success resp
  | Except.error _ => HttpOutcome.serverError

/-- The payload ceiling installed by `JsonConfig::default().limit(1024)`. -/
def JSON_PAYLOAD_LIMIT : Nat := 1024

/-- A request body: its size in bytes and its JSON value (`none` when the
bytes are not valid JSON). -/
structure Body where
  size : Nat
  json : Option Json

/-- The full `POST /api/v1/downloads` pipeline: the JSON extractor
rejects an oversized body with 413 and an unparsable one with 400 before
the handler runs; otherwise the handler runs. The second component counts
queries executed against the database (a query is issued exactly when the
closure was scheduled and the connection checkout succeeded). -/
def endpoint (env : ExecEnv) (db : Database) (body : Body) :
    HttpOutcome × Nat :=
  if JSON_PAYLOAD_LIMIT < body.size then (HttpOutcome.clientError 413, 0)
  else
    match body.json with
    | none => (HttpOutcome.clientError 400, 0)
    | some j =>
      match parseRequest j with
      | none => (HttpOutcome.clientError 400, 0)
      | some req =>
        (download_timeseries env db req,
         if env.scheduleOk && env.poolGetOk then 1 else 0)

/-- The join rows that match a request: name must match, and the version
predicate applies only when the request carries a version. -/
def matchingRows (db : Database) (req : DownloadTimeseriesRequest) :
    List JoinRow :=
  (joinRows db).filter fun r =>
    r.1.name == req.name &&
      (match req.version with
       | some v => r.2.1.num == v
       | none => true)

/-- Written to the spec's words (§4.1, §9): a single query-construction
function over an optional filter — join chain, name predicate, version
predicate only when present, group by date, sum, order ascending. The
refinement theorem compares the handler's two hand-written queries
against this. -/
def querySpecUnified (db : Database) (req : DownloadTimeseriesRequest) :
    List (Int × Int) :=
  sqlGroupOrder (matchingRows db req)

/-- Environment in which every infrastructure step succeeds. -/
def envAllOk : ExecEnv :=
  { scheduleOk := true, poolGetOk := true, queryOk := true, rowMapOk := true }

/-- A store with no rows at all. -/
def emptyDb : Database := { crates := [], versions := [], version_downloads := [] }

/-- A well-formed body whose `name` field is the empty string. -/
def emptyNameBody : Body :=
  { size := 14, json := some (Json.obj [("name", Json.str "")]) }

/-- A small store: one crate with two versions; both versions downloaded
on day 737425, one of them again on day 737426. -/
def exDb : Database :=
  { crates := [{ id := 1, name := "serde" }]
    versions := [{ id := 10, crate_id := 1, num := "1.0.0" },
                 { id := 11, crate_id := 1, num := "1.0.1" }]
    version_downloads := [{ version_id := 11, date := 737425, downloads := 7 },
                          { version_id := 10, date := 737426, downloads := 3 },
                          { version_id := 10, date := 737425, downloads := 5 }] }

/-! Helper lemmas shared by the claim theorems. -/

set_option maxRecDepth 4096 in
/-- The two query texts are distinct strings. -/
theorem queryTexts_ne : queryTextNoVersion ≠ queryTextWithVersion := by
  decide

/-- Running the query the handler selects always succeeds in the SQL
engine and computes the unified optional-filter aggregation. -/
theorem runSql_executedQuery (db : Database) (req : DownloadTimeseriesRequest) :
    runSql db (executedQuery req).1 (executedQuery req).2 =
      some (sqlGroupOrder (matchingRows db req)) := by
  cases hv : req.version with
  | some v =>
    simp [executedQuery, hv, runSql, queryWithVersion, matchingRows]
  | none =>
    simp [executedQuery, hv, runSql, queryNoVersion, matchingRows, queryTexts_ne]

/-- Complete characterization of the handler: all four infrastructure
steps succeed and the aggregated rows come back wrapped in a 200 response;
any failure gives the generic 500. -/
theorem download_timeseries_eq (env : ExecEnv) (db : Database)
    (req : DownloadTimeseriesRequest) :
    download_timeseries env db req =
      if env.scheduleOk && env.poolGetOk && env.queryOk && env.rowMapOk then
        HttpOutcome.success
          { name := req.name, version := req.version,
            downloads := (sqlGroupOrder (matchingRows db req)).map fun p =>
              { date := p.1, downloads := p.2 } }
      else HttpOutcome.serverError := by
  cases hs : env.scheduleOk <;> cases hp : env.poolGetOk <;>
    cases hq : env.queryOk <;> cases hr : env.rowMapOk <;>
      simp [download_timeseries, webBlock, blockingClosure,
        runSql_executedQuery, hs, hp, hq, hr]

/-- Shape of any successful handler response. -/
theorem download_timeseries_success (env : ExecEnv) (db : Database)
    (req : DownloadTimeseriesRequest) (resp : Response)
    (h : download_timeseries env db req = HttpOutcome.success resp) :
    resp =
      { name := req.name, version := req.version,
        downloads := (sqlGroupOrder (matchingRows db req)).map fun p =>
          { date := p.1, downloads := p.2 } } := by
  rw [download_timeseries_eq] at h
  by_cases hb : (env.scheduleOk && env.poolGetOk && env.queryOk && env.rowMapOk) = true
  · rw [if_pos hb] at h
    exact (HttpOutcome.success.injEq _ _).mp h.symm
  · rw [if_neg hb] at h
    cases h

/-- The date column of the aggregated result is the sorted deduplicated
date column of the underlying rows. -/
theorem sqlGroupOrder_fst (rows : List JoinRow) :
    (sqlGroupOrder rows).map Prod.fst =
      List.insertionSort (· ≤ ·) (rowsDates rows).dedup := by
  have h : (Prod.fst ∘ fun d : Int => (d, sumAtDate rows d)) = id := rfl
  simp only [sqlGroupOrder, List.map_map, h, List.map_id]

/-- The aggregated result is sorted by ascending date. -/
theorem sqlGroupOrder_sorted (rows : List JoinRow) :
    List.Sorted (· ≤ ·) ((sqlGroupOrder rows).map Prod.fst) := by
  rw [sqlGroupOrder_fst]
  exact List.sorted_insertionSort _ _

/-- The aggregated result has no duplicate dates. -/
theorem sqlGroupOrder_nodup (rows : List JoinRow) :
    ((sqlGroupOrder rows).map Prod.fst).Nodup := by
  rw [sqlGroupOrder_fst]
  exact (List.Perm.nodup_iff (List.perm_insertionSort _ _)).mpr
    (List.nodup_dedup _)

/-- A JSON object without a `name` field fails deserialization. -/
theorem parseRequest_no_name (fields : List (String × Json))
    (h : lookupField "name" fields = none) :
    parseRequest (Json.obj fields) = none := by
  simp [parseRequest, h]

/-- The response the handler computes for `{"name": "serde"}` over `exDb`. -/
def exRespNoVersion : Response :=
  { name := "serde", version := none,
    downloads := [{ date := 737425, downloads := 12 },
                  { date := 737426, downloads := 3 }] }

/-- C1: the query executed is selected by the optional version filter:
with a version present the handler runs the with-version query (join
chain, name AND version predicates, group by date, sum, order ascending)
on positionally bound name and version; with no version it runs the same
join chain with the version predicate omitted, so all versions are
aggregated together per date. Either way the executed query computes the
unified optional-filter aggregation. -/
theorem executedQuery_selected_by_version (db : Database)
    (req : DownloadTimeseriesRequest) :
    runSql db (executedQuery req).1 (executedQuery req).2 =
        some (querySpecUnified db req) ∧
      querySpecUnified db req =
        (match req.version with
         | some v => queryWithVersion db req.name v
         | none => queryNoVersion db req.name) := by
  refine ⟨by rw [runSql_executedQuery]; rfl, ?_⟩
  cases hv : req.version with
  | some v => simp [querySpecUnified, matchingRows, queryWithVersion, hv]
  | none => simp [querySpecUnified, matchingRows, queryNoVersion, hv]

/-- C3: a successful handler response echoes the request: its `name` and
`version` fields equal the values supplied in the request (so an absent
request version stays absent in the response). -/
theorem response_echoes_request (env : ExecEnv) (db : Database)
    (req : DownloadTimeseriesRequest) (resp : Response)
    (h : download_timeseries env db req = HttpOutcome.success resp) :
    resp.name = req.name ∧ resp.version = req.version := by
  have he := download_timeseries_success env db req resp h
  subst he
  exact ⟨rfl, rfl⟩

set_option maxRecDepth 8192 in
/-- Witness for C3: on the concrete store `exDb`, the request for all
versions of serde succeeds and the response echoes name and absent
version. -/
theorem response_echoes_request_witness :
    exRespNoVersion.name = "serde" ∧ exRespNoVersion.version = none :=
  response_echoes_request envAllOk exDb
    { name := "serde", version := none } exRespNoVersion (by decide)

/-- C4: when the store holds no row matching the request, all
infrastructure steps succeeding, the handler answers 200 with an empty
downloads sequence — never an error. -/
theorem no_rows_empty_success (env : ExecEnv) (db : Database)
    (req : DownloadTimeseriesRequest)
    (hs : env.scheduleOk = true) (hp : env.poolGetOk = true)
    (hq : env.queryOk = true) (hr : env.rowMapOk = true)
    (hrows : matchingRows db req = []) :
    download_timeseries env db req =
        HttpOutcome.success
          { name := req.name, version := req.version, downloads := [] } ∧
      statusCode (download_timeseries env db req) = 200 := by
  have h := download_timeseries_eq env db req
  rw [hs, hp, hq, hr, hrows] at h
  simp only [Bool.and_self, if_true] at h
  simp [sqlGroupOrder, rowsDates] at h
  exact ⟨h, by rw [h]; rfl⟩

set_option maxRecDepth 8192 in
/-- Witness for C4: an unknown package over the concrete store `exDb`
yields 200 with an empty downloads list. -/
theorem no_rows_empty_success_witness :
    download_timeseries envAllOk exDb { name := "unknown-pkg", version := none } =
        HttpOutcome.success
          { name := "unknown-pkg", version := none, downloads := [] } ∧
      statusCode
          (download_timeseries envAllOk exDb
            { name := "unknown-pkg", version := none }) = 200 :=
  no_rows_empty_success envAllOk exDb { name := "unknown-pkg", version := none }
    rfl rfl rfl rfl (by decide)

/-- C5: the downloads sequence of any successful response is sorted in
ascending date order and has no duplicate dates (date is the group key). -/
theorem downloads_sorted_nodup (env : ExecEnv) (db : Database)
    (req : DownloadTimeseriesRequest) (resp : Response)
    (h : download_timeseries env db req = HttpOutcome.success resp) :
    List.Sorted (· ≤ ·) (resp.downloads.map Download.date) ∧
      (resp.downloads.map Download.date).Nodup := by
  have he := download_timeseries_success env db req resp h
  subst he
  have hmap :
      ((sqlGroupOrder (matchingRows db req)).map (fun p =>
          ({ date := p.1, downloads := p.2 } : Download))).map Download.date =
        (sqlGroupOrder (matchingRows db req)).map Prod.fst := by
    rw [List.map_map]
    rfl
  refine ⟨?_, ?_⟩
  · rw [show (Response.downloads
        { name := req.name, version := req.version,
          downloads := (sqlGroupOrder (matchingRows db req)).map fun p =>
            { date := p.1, downloads := p.2 } }) =
        (sqlGroupOrder (matchingRows db req)).map (fun p =>
          ({ date := p.1, downloads := p.2 } : Download)) from rfl, hmap]
    exact sqlGroupOrder_sorted _
  · rw [show (Response.downloads
        { name := req.name, version := req.version,
          downloads := (sqlGroupOrder (matchingRows db req)).map fun p =>
            { date := p.1, downloads := p.2 } }) =
        (sqlGroupOrder (matchingRows db req)).map (fun p =>
          ({ date := p.1, downloads := p.2 } : Download)) from rfl, hmap]
    exact sqlGroupOrder_nodup _

set_option maxRecDepth 8192 in
/-- Witness for C5: the concrete successful response over `exDb` is
sorted by date with no duplicates. -/
theorem downloads_sorted_nodup_witness :
    List.Sorted (· ≤ ·) (exRespNoVersion.downloads.map Download.date) ∧
      (exRespNoVersion.downloads.map Download.date).Nodup :=
  downloads_sorted_nodup envAllOk exDb
    { name := "serde", version := none } exRespNoVersion (by decide)

/-- C2: past parsing, a failure in any acquire or execute step (connection
checkout, query execution, row mapping, scheduling on the blocking pool)
surfaces as the single generic 500 outcome, while a body that fails the
parse step gets a 4xx client fault. -/
theorem internal_fault_500_input_fault_4xx (env : ExecEnv) (db : Database)
    (body body2 : Body) (j : Json) (req : DownloadTimeseriesRequest)
    (hsize : body.size ≤ JSON_PAYLOAD_LIMIT) (hjson : body.json = some j)
    (hparse : parseRequest j = some req)
    (hfault : env.poolGetOk = false ∨ env.queryOk = false ∨
      env.rowMapOk = false ∨ env.scheduleOk = false)
    (hsize2 : body2.size ≤ JSON_PAYLOAD_LIMIT) (hjson2 : body2.json = none) :
    (endpoint env db body).1 = HttpOutcome.serverError ∧
      statusCode (endpoint env db body).1 = 500 ∧
      endpoint env db body2 = (HttpOutcome.clientError 400, 0) := by
  have hc : ¬(env.scheduleOk && env.poolGetOk && env.queryOk && env.rowMapOk) = true := by
    intro hct
    simp only [Bool.and_eq_true] at hct
    rcases hfault with hf | hf | hf | hf <;> rw [hf] at hct <;> simp at hct
  have h500 : download_timeseries env db req = HttpOutcome.serverError := by
    rw [download_timeseries_eq, if_neg hc]
  have hend : (endpoint env db body).1 = HttpOutcome.serverError := by
    simp [endpoint, Nat.not_lt.mpr hsize, hjson, hparse, h500]
  refine ⟨hend, by rw [hend]; rfl, ?_⟩
  simp [endpoint, Nat.not_lt.mpr hsize2, hjson2]

/-- Environment where connection checkout from the pool fails. -/
def faultEnv : ExecEnv :=
  { scheduleOk := true, poolGetOk := false, queryOk := true, rowMapOk := true }

/-- A well-formed request body for the serde package. -/
def okBody : Body :=
  { size := 16, json := some (Json.obj [("name", Json.str "serde")]) }

/-- A body that is not valid JSON. -/
def badBody : Body := { size := 10, json := none }

/-- Witness for C2: with pool checkout failing, the serde request gets
the generic 500; the malformed body gets 400 with no query executed. -/
theorem internal_fault_500_input_fault_4xx_witness :
    (endpoint faultEnv exDb okBody).1 = HttpOutcome.serverError ∧
      statusCode (endpoint faultEnv exDb okBody).1 = 500 ∧
      endpoint faultEnv exDb badBody = (HttpOutcome.clientError 400, 0) :=
  internal_fault_500_input_fault_4xx faultEnv exDb okBody badBody
    (Json.obj [("name", Json.str "serde")])
    { name := "serde", version := none }
    (by decide) rfl (by decide) (Or.inl rfl) (by decide) rfl

/-- C6: a body over the 1024-byte ceiling is rejected with 413 by the
payload guard, with zero queries executed — the handler never runs and
the database is never touched. -/
theorem oversized_body_rejected (env : ExecEnv) (db : Database) (body : Body)
    (h : JSON_PAYLOAD_LIMIT < body.size) :
    endpoint env db body = (HttpOutcome.clientError 413, 0) ∧
      statusCode (endpoint env db body).1 = 413 := by
  have he : endpoint env db body = (HttpOutcome.clientError 413, 0) := by
    simp [endpoint, h]
  exact ⟨he, by rw [he]; rfl⟩

/-- Witness for C6: a 2000-byte body is rejected with 413 and no query. -/
theorem oversized_body_rejected_witness :
    endpoint envAllOk exDb { size := 2000, json := none } =
        (HttpOutcome.clientError 413, 0) ∧
      statusCode (endpoint envAllOk exDb { size := 2000, json := none }).1 = 413 :=
  oversized_body_rejected envAllOk exDb { size := 2000, json := none } (by decide)

/-- C7: a body that is malformed JSON, or whose JSON object lacks the
required `name` field, is answered with a 4xx client fault — never the
500 internal fault — and no query is executed for it. -/
theorem malformed_or_missing_name_rejected (env : ExecEnv) (db : Database)
    (body : Body)
    (h : body.json = none ∨
      ∃ fields, body.json = some (Json.obj fields) ∧
        lookupField "name" fields = none) :
    (endpoint env db body).2 = 0 ∧
      400 ≤ statusCode (endpoint env db body).1 ∧
      statusCode (endpoint env db body).1 < 500 ∧
      (endpoint env db body).1 ≠ HttpOutcome.serverError := by
  by_cases hs : JSON_PAYLOAD_LIMIT < body.size
  · have he : endpoint env db body = (HttpOutcome.clientError 413, 0) := by
      simp [endpoint, hs]
    rw [he]
    refine ⟨rfl, by simp [statusCode], by simp [statusCode], by simp⟩
  · have he : endpoint env db body = (HttpOutcome.clientError 400, 0) := by
      rcases h with hj | ⟨fields, hj, hname⟩
      · simp [endpoint, hs, hj]
      · simp [endpoint, hs, hj, parseRequest_no_name fields hname]
    rw [he]
    refine ⟨rfl, by simp [statusCode], by simp [statusCode], by simp⟩

/-- Witness for C7: the body `\x7b\x7d` (no `name` field) gets 400 and no
query. -/
theorem malformed_or_missing_name_rejected_witness :
    (endpoint envAllOk exDb { size := 2, json := some (Json.obj []) }).2 = 0 ∧
      400 ≤ statusCode
          (endpoint envAllOk exDb { size := 2, json := some (Json.obj []) }).1 ∧
      statusCode
          (endpoint envAllOk exDb { size := 2, json := some (Json.obj []) }).1 < 500 ∧
      (endpoint envAllOk exDb { size := 2, json := some (Json.obj []) }).1 ≠
        HttpOutcome.serverError :=
  malformed_or_missing_name_rejected envAllOk exDb
    { size := 2, json := some (Json.obj []) }
    (Or.inr ⟨[], rfl, rfl⟩)

set_option maxRecDepth 8192 in
/-- Counterexample for C8: the body whose `name` field is the empty
string is not rejected — it deserializes to a request with empty name,
the handler runs, a query is executed against the store, and the
response is a 200 success. -/
theorem empty_name_accepted_counterexample :
    parseRequest (Json.obj [("name", Json.str "")]) =
        some { name := "", version := none } ∧
      endpoint envAllOk emptyDb emptyNameBody =
        (HttpOutcome.success { name := "", version := none, downloads := [] }, 1) ∧
      statusCode (endpoint envAllOk emptyDb emptyNameBody).1 = 200 := by
  refine ⟨rfl, by decide, by decide⟩

set_option maxRecDepth 8192 in
/-- C8 amended: the `name` field is required — a JSON object without it
is rejected as an input fault with no query executed — but emptiness is
not checked: the empty-string name is accepted and its query runs. -/
theorem name_required_empty_name_accepted (env : ExecEnv) (db : Database)
    (fields : List (String × Json)) (sz : Nat)
    (hsz : sz ≤ JSON_PAYLOAD_LIMIT) (hname : lookupField "name" fields = none) :
    endpoint env db { size := sz, json := some (Json.obj fields) } =
        (HttpOutcome.clientError 400, 0) ∧
      (endpoint envAllOk emptyDb emptyNameBody).1 =
        HttpOutcome.success { name := "", version := none, downloads := [] } := by
  refine ⟨?_, by decide⟩
  simp [endpoint, Nat.not_lt.mpr hsz, parseRequest_no_name fields hname]

/-- Witness for C8 amended: a body carrying only a `version` field is
rejected with 400 and no query; the empty-name body succeeds. -/
theorem name_required_empty_name_accepted_witness :
    endpoint envAllOk exDb
        { size := 20, json := some (Json.obj [("version", Json.str "1.0.0")]) } =
        (HttpOutcome.clientError 400, 0) ∧
      (endpoint envAllOk emptyDb emptyNameBody).1 =
        HttpOutcome.success { name := "", version := none, downloads := [] } :=
  name_required_empty_name_accepted envAllOk exDb
    [("version", Json.str "1.0.0")] 20 (by decide) rfl

/-- C9: the executed SQL text is one of exactly two constant strings,
determined solely by whether `version` is present and independent of the
request values; the values are passed only as the positional parameter
list `name` then (if present) `version`. -/
theorem query_text_constant_params_positional
    (r1 r2 : DownloadTimeseriesRequest)
    (h : r1.version.isSome = r2.version.isSome) :
    (executedQuery r1).1 = (executedQuery r2).1 ∧
      ((executedQuery r1).1 = queryTextWithVersion ∨
        (executedQuery r1).1 = queryTextNoVersion) ∧
      queryTextNoVersion ≠ queryTextWithVersion ∧
      (executedQuery r1).2 = r1.name :: r1.version.toList ∧
      (executedQuery r2).2 = r2.name :: r2.version.toList := by
  cases h1 : r1.version <;> cases h2 : r2.version <;>
    simp [executedQuery, h1, h2, queryTexts_ne, Option.toList] at h ⊢

/-- Witness for C9: two requests that both carry a version execute the
same constant query text, with their differing values bound only as
parameters. -/
theorem query_text_constant_params_positional_witness :
    (executedQuery { name := "serde", version := some "1.0.0" }).1 =
        (executedQuery { name := "rand", version := some "0.8.5" }).1 ∧
      ((executedQuery { name := "serde", version := some "1.0.0" }).1 =
          queryTextWithVersion ∨
        (executedQuery { name := "serde", version := some "1.0.0" }).1 =
          queryTextNoVersion) ∧
      queryTextNoVersion ≠ queryTextWithVersion ∧
      (executedQuery { name := "serde", version := some "1.0.0" }).2 =
        "serde" :: (some "1.0.0").toList ∧
      (executedQuery { name := "rand", version := some "0.8.5" }).2 =
        "rand" :: (some "0.8.5").toList :=
  query_text_constant_params_positional
    { name := "serde", version := some "1.0.0" }
    { name := "rand", version := some "0.8.5" } rfl

/-- C10: the unit of work given to the blocking executor has error type
`()` and never produces its `Err` value; the handler answers 500 exactly
when an infrastructure step fails (scheduling, checkout, query, or row
mapping — surfaced through the bridge as cancellation), and every request
that reaches the handler ends in 200 or 500. -/
theorem blocking_work_never_errs (env : ExecEnv) (db : Database)
    (req : DownloadTimeseriesRequest) :
    blockingClosure env db req ≠ PanicOr.value (Except.error ()) ∧
      (download_timeseries env db req = HttpOutcome.serverError ↔
        (env.scheduleOk && env.poolGetOk && env.queryOk && env.rowMapOk) = false) ∧
      (statusCode (download_timeseries env db req) = 200 ∨
        statusCode (download_timeseries env db req) = 500) := by
  refine ⟨?_, ?_, ?_⟩
  · cases hp : env.poolGetOk <;> cases hq : env.queryOk <;>
      cases hr : env.rowMapOk <;>
      simp [blockingClosure, hp, hq, hr, runSql_executedQuery]
  · rw [download_timeseries_eq]
    by_cases hb : (env.scheduleOk && env.poolGetOk && env.queryOk && env.rowMapOk) = true
    · simp [hb]
    · simp only [Bool.not_eq_true] at hb
      simp [hb]
  · rw [download_timeseries_eq]
    by_cases hb : (env.scheduleOk && env.poolGetOk && env.queryOk && env.rowMapOk) = true
    · rw [if_pos hb]
      exact Or.inl rfl
    · rw [if_neg hb]
      exact Or.inr rfl

end CrateStats
